import Mathlib

/-
Verification of `bodies/hammer.py` from the procedural-objects repository.

The Python module is embedded shallowly:
- numeric values (Python floats) are modelled as real numbers;
- a part's data dictionary becomes a structure with a string `name` and a
  total map from string keys to reals (the generators are specified to
  always populate the keys this module reads, so missing-key errors do not
  arise on the inputs the claims quantify over);
- the collaborator link generators (`ScadCubeLink`, `ScadCylinderLink`,
  `ScadPolygonLink`, `Link`) are abstracted to their interface
  {generate, convert_data_to_urdf}; their mesh-file side effects are not
  modelled since no claim touches them;
- the filesystem is a map from filenames to optional contents, and writing
  a file is a pointwise update of that map;
- `random.choice` consumes one index from an ambient random sequence and
  fails (returns `none`, mirroring the Python IndexError) on an empty list;
- `Hammer.generate` returns `none` exactly when a `random.choice` fails,
  and otherwise the written filesystem together with the final part data.
-/

namespace ProceduralObjects

/-- A part's data dictionary: the identifying name plus the numeric fields
(`x`, `y`, `z`, `roll`, `pitch`, `yaw`, `size_z`, ...). -/
structure PartData where
  name : String
  fields : String → ℝ

/-- Overwrite one numeric field of a part's data, as the assignment
`data[key] = value` does on a Python dictionary. -/
def PartData.set (d : PartData) (k : String) (v : ℝ) : PartData :=
  { d with fields := fun q => if q = k then v else d.fields q }

/-- Elementary rotation about the first (x / roll) axis. -/
noncomputable def rotX (a : ℝ) : Matrix (Fin 3) (Fin 3) ℝ :=
  !![1, 0, 0; 0, Real.cos a, -Real.sin a; 0, Real.sin a, Real.cos a]

/-- Elementary rotation about the second (y / pitch) axis. -/
noncomputable def rotY (a : ℝ) : Matrix (Fin 3) (Fin 3) ℝ :=
  !![Real.cos a, 0, Real.sin a; 0, 1, 0; -Real.sin a, 0, Real.cos a]

/-- Elementary rotation about the third (z / yaw) axis. -/
noncomputable def rotZ (a : ℝ) : Matrix (Fin 3) (Fin 3) ℝ :=
  !![Real.cos a, -Real.sin a, 0; Real.sin a, Real.cos a, 0; 0, 0, 1]

/-- Modelled from the spec: `utils.transformations.matrix3_from_euler` is
imported by `bodies/hammer.py` but its source is not in the repository
snapshot. Per the spec (section 4.1) it builds the rotation matrix from
Euler angles with the fixed convention x=roll, y=pitch, z=yaw, applying
roll, then pitch, then yaw. -/
noncomputable def matrix3_from_euler (roll pitch yaw : ℝ) : Matrix (Fin 3) (Fin 3) ℝ :=
  rotZ yaw * rotY pitch * rotX roll

/-- The function `transform_point` from `bodies/hammer.py` (lines 38-54):
rigid transformation of a point,
`matrix3_from_euler(roll, pitch, yaw) · point + translation`. -/
noncomputable def transform_point (point rotation translation : Fin 3 → ℝ) : Fin 3 → ℝ :=
  let roll := rotation 0
  let pitch := rotation 1
  let yaw := rotation 2
  let rotation_matrix := matrix3_from_euler roll pitch yaw
  rotation_matrix.mulVec point + translation

/-- The collaborator link-generator interface consumed by `Hammer`:
`generate(path)` samples a part and returns its data (its mesh-file side
effects are outside this model), and `convert_data_to_urdf(data)` renders
the data as a description fragment. -/
structure LinkGenerator where
  gen : String → PartData
  convert_data_to_urdf : PartData → String

/-- The sampling configuration records passed to the link generators
(`HANDLE_CONFIG` / `HEAD_CONFIG` in `bodies/hammer.py`). -/
structure LinkConfig where
  mass_range : List ℝ
  size_range : List (List ℝ)
  lateral_friction_range : List ℝ
  spinning_friction_range : List ℝ
  inertia_friction_range : List ℝ

noncomputable def LATERAL_FRICTION_RANGE : List ℝ := [0.2, 1.0]

noncomputable def SPINNING_FRICTION_RANGE : List ℝ := [0.2, 1.0]

noncomputable def INERTIA_FRICTION_RANGE : List ℝ := [0.2, 1.0]

noncomputable def HANDLE_CONFIG : LinkConfig :=
  { mass_range := [0.5, 1.0]
    size_range := [[0.1, 0.1], [0.2, 0.2], [1, 1]]
    lateral_friction_range := LATERAL_FRICTION_RANGE
    spinning_friction_range := SPINNING_FRICTION_RANGE
    inertia_friction_range := INERTIA_FRICTION_RANGE }

noncomputable def HEAD_CONFIG : LinkConfig :=
  { mass_range := [0.5, 1.0]
    size_range := [[0.1, 0.1], [0.2, 0.2], [1, 1]]
    lateral_friction_range := LATERAL_FRICTION_RANGE
    spinning_friction_range := SPINNING_FRICTION_RANGE
    inertia_friction_range := INERTIA_FRICTION_RANGE }

/-- Modelled from the spec: the template resource `templates/hammer.xml` is
not in the repository snapshot. Per the spec (section 6) it is a text file
with named substitution slots (body name, handle fragment, head fragment,
handle part name, head part name); it is modelled pre-parsed as a list of
literal and slot pieces, rendered by concatenation as Python `str.format`
does. -/
inductive TemplatePiece where
  | lit : String → TemplatePiece
  | slot : String → TemplatePiece
deriving DecidableEq

/-- Render a parsed template by substituting every slot via the given
lookup, the semantics of Python `str.format` on such a template. -/
def renderTemplate : List TemplatePiece → (String → String) → String
  | [], _ => ""
  | TemplatePiece.lit s :: rest, f => s ++ renderTemplate rest f
  | TemplatePiece.slot k :: rest, f => f k ++ renderTemplate rest f

/-- Predicate stating that `s` occurs as a substring of `t`. -/
def containsSubstr (s t : String) : Prop := ∃ u v : String, u ++ s ++ v = t

/-- Python `random.choice(l)` with the ambient random sequence supplying
index `i`: returns `l[i % len(l)]`, and fails (Python raises IndexError)
when `l` is empty. -/
def randomChoice {α : Type} (l : List α) (i : Nat) : Option α :=
  l.get? (i % l.length)

/-- The state of a constructed `Hammer` object (`bodies/hammer.py`,
lines 57-104). -/
structure Hammer where
  template : List TemplatePiece
  handle_generators : List LinkGenerator
  head_generators : List LinkGenerator
  random_flip : Bool
  name : String

/-- The constructor `Hammer.__init__` (lines 63-104). Reading the template resource is
modelled by the `template_read` argument: `none` when the file is missing
or unreadable (the Python `open`/`read` raises and the constructor fails,
returning no object), `some t` with the parsed template otherwise. The
collaborator constructors (`ScadCubeLink`, `ScadCylinderLink`,
`ScadPolygonLink`, `Link`) are abstracted as the `mk*` arguments, each
receiving the link name and the configuration record as in the source. -/
def hammerInit (mkScadCube mkScadCylinder mkScadPolygon : String → LinkConfig → LinkGenerator)
    (mkLink : String → List String → LinkConfig → LinkGenerator)
    (handleConfig headConfig : LinkConfig)
    (template_read : Option (List TemplatePiece))
    (name : String) (obj_paths : Option (List String)) (random_flip : Bool) :
    Option Hammer :=
  match template_read with
  | none => none
  | some template =>
    let handle_generators :=
      match obj_paths with
      | none => [mkScadCube "handle" handleConfig,
                 mkScadCylinder "handle" handleConfig,
                 mkScadPolygon "handle" handleConfig]
      | some ps => [mkLink "handle" ps handleConfig]
    let head_generators :=
      match obj_paths with
      | none => [mkScadCube "head" headConfig,
                 mkScadCylinder "head" headConfig,
                 mkScadPolygon "head" headConfig]
      | some ps => [mkLink "head" ps headConfig]
    some { template := template
           handle_generators := handle_generators
           head_generators := head_generators
           random_flip := random_flip
           name := name }

/-- The method `Hammer.sample_head_transformation` (lines 151-166): the fixed
T-shape pose, rotation `[0.5 * pi, 0, 0]` and translation
`[0, 0, 0.5 * handle_data['size_z']]`. -/
noncomputable def Hammer.sample_head_transformation (_self : Hammer)
    (handle_data _head_data : PartData) : (Fin 3 → ℝ) × (Fin 3 → ℝ) :=
  (![0.5 * Real.pi, 0, 0], ![0, 0, 0.5 * handle_data.fields "size_z"])

/-- The result of one successful `Hammer.generate` call: the filesystem
after the write, the written filename and content, and the final part
data of the two links. -/
structure GenResult where
  fs : String → Option String
  filename : String
  content : String
  handle_data : PartData
  head_data : PartData

/-- The body of `Hammer.generate` (lines 115-149) after the two
`random.choice` selections succeeded: generate both links, move the head
by the sampled transformation, take the (no-op) random-flip branch,
render the template and write `<path>/<name>.urdf`. `os.path.join` is
modelled as joining with a slash, since the second component
`'%s.urdf' % name` is a relative filename. Slots other than the five the
source supplies do not occur in the template per the spec; the lookup
returns `""` for them. -/
noncomputable def Hammer.generateCore (self : Hammer)
    (handle_generator head_generator : LinkGenerator)
    (path : String) (fs : String → Option String) : GenResult :=
  let handle_data := handle_generator.gen path
  let head_data := head_generator.gen path
  let rt := self.sample_head_transformation handle_data head_data
  let rotation := rt.1
  let transition := rt.2
  let center0 : Fin 3 → ℝ :=
    ![head_data.fields "x", head_data.fields "y", head_data.fields "z"]
  let center := transform_point center0 rotation transition
  let head_data := head_data.set "x" (center 0)
  let head_data := head_data.set "y" (center 1)
  let head_data := head_data.set "z" (center 2)
  let head_data := head_data.set "roll" (rotation 0)
  let head_data := head_data.set "pitch" (rotation 1)
  let head_data := head_data.set "yaw" (rotation 2)
  let head_data := if self.random_flip then head_data else head_data
  let handle_urdf := handle_generator.convert_data_to_urdf handle_data
  let head_urdf := head_generator.convert_data_to_urdf head_data
  let urdf := renderTemplate self.template (fun k =>
    if k = "name" then self.name
    else if k = "handle_link" then handle_urdf
    else if k = "head_link" then head_urdf
    else if k = "handle_name" then handle_data.name
    else if k = "head_name" then head_data.name
    else "")
  let urdf_filename := path ++ "/" ++ self.name ++ ".urdf"
  { fs := fun q => if q = urdf_filename then some urdf else fs q
    filename := urdf_filename
    content := urdf
    handle_data := handle_data
    head_data := head_data }

/-- The method `Hammer.generate` (lines 106-149): choose one handle
generator and one head generator at random (failing on an empty list),
then run the body. -/
noncomputable def Hammer.generate (self : Hammer) (path : String) (i j : Nat)
    (fs : String → Option String) : Option GenResult :=
  match randomChoice self.handle_generators i, randomChoice self.head_generators j with
  | some handle_generator, some head_generator =>
      some (self.generateCore handle_generator head_generator path fs)
  | _, _ => none

/-! Helper lemmas -/

theorem matrix3_from_euler_zero : matrix3_from_euler 0 0 0 = 1 := by
  have hx : rotX 0 = 1 := by
    rw [rotX]
    simp [Matrix.one_fin_three]
  have hy : rotY 0 = 1 := by
    rw [rotY]
    simp [Matrix.one_fin_three]
  have hz : rotZ 0 = 1 := by
    rw [rotZ]
    simp [Matrix.one_fin_three]
  rw [matrix3_from_euler, hx, hy, hz, one_mul, one_mul]

theorem randomChoice_isSome {α : Type} (l : List α) (i : Nat) (hl : l ≠ []) :
    (randomChoice l i).isSome := by
  have hlen : 0 < l.length := List.length_pos.mpr hl
  have hm : i % l.length < l.length := Nat.mod_lt _ hlen
  rw [randomChoice, List.get?_eq_get hm]
  rfl

theorem renderTemplate_contains {k : String} {t : List TemplatePiece} (f : String → String)
    (hk : TemplatePiece.slot k ∈ t) : containsSubstr (f k) (renderTemplate t f) := by
  induction t with
  | nil => cases hk
  | cons p rest ih =>
    cases p with
    | lit s =>
      have hk' : TemplatePiece.slot k ∈ rest := by
        rcases List.mem_cons.mp hk with heq | hmem
        · simp at heq
        · exact hmem
      obtain ⟨u, v, huv⟩ := ih hk'
      exact ⟨s ++ u, v, by
        rw [renderTemplate, ← huv, String.append_assoc, String.append_assoc,
          String.append_assoc]⟩
    | slot q =>
      rcases List.mem_cons.mp hk with heq | hmem
      · have hq : q = k := by
          cases heq
          rfl
        subst hq
        exact ⟨"", renderTemplate rest f, by
          rw [String.empty_append, renderTemplate]⟩
      · obtain ⟨u, v, huv⟩ := ih hmem
        exact ⟨f q ++ u, v, by
          rw [renderTemplate, ← huv, String.append_assoc, String.append_assoc,
            String.append_assoc]⟩

theorem renderTemplate_contains_eq {k s : String} {t : List TemplatePiece}
    (f : String → String) (hk : TemplatePiece.slot k ∈ t) (hs : f k = s) :
    containsSubstr s (renderTemplate t f) :=
  hs ▸ renderTemplate_contains f hk

/-! Claim theorems -/

/-- C1: for every handle part data (with its `size_z` field) and every head
part data, `sample_head_transformation` returns exactly the rotation
`(pi/2, 0, 0)` and the translation `(0, 0, 0.5 * handle size_z)`; the head
data does not occur in the result and no randomness is consumed. -/
theorem claim_C1 (h : Hammer) (handle_data head_data : PartData) :
    h.sample_head_transformation handle_data head_data =
      (![Real.pi / 2, 0, 0], ![0, 0, 0.5 * handle_data.fields "size_z"]) := by
  have hp : (0.5 : ℝ) * Real.pi = Real.pi / 2 := by ring
  rw [Hammer.sample_head_transformation, hp]

/-- C3: `transform_point p rotation t` equals the Euler rotation matrix of
`(rotation 0, rotation 1, rotation 2)` applied to `p`, plus `t`; it is a
pure function of its three arguments. -/
theorem claim_C3 (point rotation translation : Fin 3 → ℝ) :
    transform_point point rotation translation =
      (matrix3_from_euler (rotation 0) (rotation 1) (rotation 2)).mulVec point
        + translation := rfl

/-- C4: `transform_point` maps the zero point to the translation for every
rotation, and is the identity at the identity rotation `(0, 0, 0)` with
zero translation. -/
theorem claim_C4 :
    (∀ rotation translation : Fin 3 → ℝ,
      transform_point 0 rotation translation = translation)
    ∧ ∀ point : Fin 3 → ℝ, transform_point point ![0, 0, 0] ![0, 0, 0] = point := by
  have h0 : (![0, 0, 0] : Fin 3 → ℝ) = 0 := by
    funext i
    fin_cases i <;> rfl
  constructor
  · intro rotation translation
    rw [transform_point]
    simp [Matrix.mulVec_zero]
  · intro point
    rw [transform_point, h0]
    simp [matrix3_from_euler_zero, Matrix.one_mulVec]

/-- C6: the `random_flip` flag is inert: with the same random indices, the
same collaborator generators and the same starting filesystem, `generate`
returns the same result (same part data, same description text, same
written file) whether the flag is true or false. -/
theorem claim_C6 (h : Hammer) (path : String) (i j : Nat)
    (fs : String → Option String) :
    Hammer.generate { h with random_flip := true } path i j fs =
      Hammer.generate { h with random_flip := false } path i j fs := by
  simp only [Hammer.generate, Hammer.generateCore, Hammer.sample_head_transformation,
    ite_self]

/-- C7: when the template resource is missing or unreadable, the
constructor fails and returns no object, for every choice of collaborator
constructors, configurations, name, mesh-path option and flip flag. -/
theorem claim_C7 (mkScadCube mkScadCylinder mkScadPolygon : String → LinkConfig → LinkGenerator)
    (mkLink : String → List String → LinkConfig → LinkGenerator)
    (handleConfig headConfig : LinkConfig)
    (name : String) (obj_paths : Option (List String)) (random_flip : Bool) :
    hammerInit mkScadCube mkScadCylinder mkScadPolygon mkLink handleConfig headConfig
      none name obj_paths random_flip = none := rfl

/-- C8: if the configured handle-generator list or head-generator list is
empty, the random selection in `generate` fails and the call returns no
result. -/
theorem claim_C8 (h : Hammer) (path : String) (i j : Nat)
    (fs : String → Option String)
    (hempty : h.handle_generators = [] ∨ h.head_generators = []) :
    h.generate path i j fs = none := by
  rcases hempty with he | he
  · rw [Hammer.generate, he]
    rfl
  · rw [Hammer.generate, he]
    cases hx : randomChoice h.handle_generators i <;> rfl

/-- A hammer state with no configured generators, used to exhibit the
empty-selection failure. -/
def emptyHammer : Hammer :=
  { template := []
    handle_generators := []
    head_generators := []
    random_flip := true
    name := "hammer" }

/-- Witness for C8 at a concrete state with an empty handle-generator
list. -/
theorem claim_C8_witness :
    (emptyHammer.handle_generators = [] ∨ emptyHammer.head_generators = [])
    ∧ emptyHammer.generate "out" 0 0 (fun _ => none) = none :=
  ⟨Or.inl rfl, claim_C8 emptyHammer "out" 0 0 (fun _ => none) (Or.inl rfl)⟩

/-- C2: in a successful `generate` call, the head part data coming out of
the pose-update step carries, in its `x`, `y`, `z` fields, the Euler
rotation matrix of the sampled rotation applied to the head's pre-transform
sampled center plus the sampled translation, and, in its `roll`, `pitch`,
`yaw` fields, the sampled rotation itself. -/
theorem claim_C2 (h : Hammer) (hg dg : LinkGenerator) (path : String) (i j : Nat)
    (fs : String → Option String) (r : GenResult)
    (hch : randomChoice h.handle_generators i = some hg)
    (hcd : randomChoice h.head_generators j = some dg)
    (hgen : h.generate path i j fs = some r) :
    let rt := h.sample_head_transformation (hg.gen path) (dg.gen path)
    let c := (matrix3_from_euler (rt.1 0) (rt.1 1) (rt.1 2)).mulVec
        ![(dg.gen path).fields "x", (dg.gen path).fields "y", (dg.gen path).fields "z"]
      + rt.2
    r.head_data.fields "x" = c 0 ∧ r.head_data.fields "y" = c 1
      ∧ r.head_data.fields "z" = c 2
      ∧ r.head_data.fields "roll" = rt.1 0
      ∧ r.head_data.fields "pitch" = rt.1 1
      ∧ r.head_data.fields "yaw" = rt.1 2 := by
  rw [Hammer.generate, hch, hcd] at hgen
  simp only [Option.some.injEq] at hgen
  subst hgen
  simp only [Hammer.generateCore, ite_self, PartData.set, transform_point]
  refine ⟨?_, ?_, ?_, ?_, ?_, ?_⟩ <;> simp

/-- C5: after a successful `generate path` call, the description file is
written exactly at `path ++ "/" ++ name ++ ".urdf"` — the new filesystem
maps that filename to the freshly rendered content, whatever it held
before — and, whenever the template carries its name slots, the content
contains the body name and both part names as substrings. -/
theorem claim_C5 (h : Hammer) (path : String) (i j : Nat)
    (fs : String → Option String) (r : GenResult)
    (hgen : h.generate path i j fs = some r)
    (hname : TemplatePiece.slot "name" ∈ h.template)
    (hhandle : TemplatePiece.slot "handle_name" ∈ h.template)
    (hhead : TemplatePiece.slot "head_name" ∈ h.template) :
    r.filename = path ++ "/" ++ h.name ++ ".urdf"
    ∧ r.fs (path ++ "/" ++ h.name ++ ".urdf") = some r.content
    ∧ containsSubstr h.name r.content
    ∧ containsSubstr r.handle_data.name r.content
    ∧ containsSubstr r.head_data.name r.content := by
  rcases hx : randomChoice h.handle_generators i with _ | hg
  · rw [Hammer.generate, hx] at hgen
    exact absurd hgen (by simp)
  rcases hy : randomChoice h.head_generators j with _ | dg
  · rw [Hammer.generate, hx, hy] at hgen
    exact absurd hgen (by simp)
  rw [Hammer.generate, hx, hy] at hgen
  simp only [Option.some.injEq] at hgen
  subst hgen
  refine ⟨rfl, ?_, ?_, ?_, ?_⟩
  · simp [Hammer.generateCore]
  · simp only [Hammer.generateCore, ite_self]
    exact renderTemplate_contains_eq _ hname (by simp)
  · simp only [Hammer.generateCore, ite_self]
    exact renderTemplate_contains_eq _ hhandle (by simp)
  · simp only [Hammer.generateCore, ite_self]
    exact renderTemplate_contains_eq _ hhead (by simp)

/-- C9: a successful `generate` call leaves the handle part data exactly as
the handle generator returned it — the description text is rendered from
`convert_data_to_urdf` applied to that unchanged mapping — and on the head
part data it keeps the name and every numeric field other than `x`, `y`,
`z`, `roll`, `pitch`, `yaw` unchanged. -/
theorem claim_C9 (h : Hammer) (hg dg : LinkGenerator) (path : String) (i j : Nat)
    (fs : String → Option String) (r : GenResult)
    (hch : randomChoice h.handle_generators i = some hg)
    (hcd : randomChoice h.head_generators j = some dg)
    (hgen : h.generate path i j fs = some r) :
    r.handle_data = hg.gen path
    ∧ r.content = renderTemplate h.template (fun k =>
        if k = "name" then h.name
        else if k = "handle_link" then hg.convert_data_to_urdf (hg.gen path)
        else if k = "head_link" then dg.convert_data_to_urdf r.head_data
        else if k = "handle_name" then (hg.gen path).name
        else if k = "head_name" then r.head_data.name
        else "")
    ∧ r.head_data.name = (dg.gen path).name
    ∧ ∀ k : String, k ≠ "x" → k ≠ "y" → k ≠ "z" →
        k ≠ "roll" → k ≠ "pitch" → k ≠ "yaw" →
        r.head_data.fields k = (dg.gen path).fields k := by
  rw [Hammer.generate, hch, hcd] at hgen
  simp only [Option.some.injEq] at hgen
  subst hgen
  refine ⟨rfl, rfl, ?_, ?_⟩
  · simp only [Hammer.generateCore]
    rw [ite_self]
    rfl
  · intro k h1 h2 h3 h4 h5 h6
    simp only [Hammer.generateCore, ite_self, PartData.set]
    simp only [if_neg h6, if_neg h5, if_neg h4, if_neg h3, if_neg h2, if_neg h1]

/-- C10: every hammer the constructor returns has three handle generators
and three head generators when no mesh-path source is given, and one of
each otherwise; in both cases the lists are non-empty, so the random
selection of every `generate` call finds a candidate. -/
theorem claim_C10 (mkScadCube mkScadCylinder mkScadPolygon : String → LinkConfig → LinkGenerator)
    (mkLink : String → List String → LinkConfig → LinkGenerator)
    (handleConfig headConfig : LinkConfig) (t : List TemplatePiece)
    (name : String) (obj_paths : Option (List String)) (random_flip : Bool)
    (h : Hammer)
    (hinit : hammerInit mkScadCube mkScadCylinder mkScadPolygon mkLink handleConfig
      headConfig (some t) name obj_paths random_flip = some h) :
    (obj_paths = none →
      h.handle_generators.length = 3 ∧ h.head_generators.length = 3)
    ∧ (∀ ps, obj_paths = some ps →
      h.handle_generators.length = 1 ∧ h.head_generators.length = 1)
    ∧ ∀ i j : Nat, (randomChoice h.handle_generators i).isSome
      ∧ (randomChoice h.head_generators j).isSome := by
  simp only [hammerInit, Option.some.injEq] at hinit
  subst hinit
  cases obj_paths with
  | none =>
    refine ⟨fun _ => ⟨rfl, rfl⟩, ?_, ?_⟩
    · intro ps hps
      cases hps
    · intro i j
      exact ⟨randomChoice_isSome _ i (by simp), randomChoice_isSome _ j (by simp)⟩
  | some ps =>
    refine ⟨?_, fun qs _ => ⟨rfl, rfl⟩, ?_⟩
    · intro hn
      cases hn
    · intro i j
      exact ⟨randomChoice_isSome _ i (by simp), randomChoice_isSome _ j (by simp)⟩

/-! Concrete instances for the witnesses -/

/-- A concrete link generator: returns a part named `part` with all
numeric fields zero, and renders a part as its name. -/
noncomputable def witnessGen : LinkGenerator :=
  { gen := fun _ => { name := "part", fields := fun _ => 0 }
    convert_data_to_urdf := fun d => d.name }

/-- A concrete template carrying all five slots of `templates/hammer.xml`. -/
def witnessTemplate : List TemplatePiece :=
  [TemplatePiece.slot "name", TemplatePiece.lit " ",
   TemplatePiece.slot "handle_link", TemplatePiece.lit " ",
   TemplatePiece.slot "head_link", TemplatePiece.lit " ",
   TemplatePiece.slot "handle_name", TemplatePiece.lit " ",
   TemplatePiece.slot "head_name"]

/-- A concrete hammer state with one generator of each kind. -/
noncomputable def witnessHammer : Hammer :=
  { template := witnessTemplate
    handle_generators := [witnessGen]
    head_generators := [witnessGen]
    random_flip := false
    name := "hammer" }

/-- The empty starting filesystem. -/
def witnessFS : String → Option String := fun _ => none

/-- The result of running the concrete hammer's generation once. -/
noncomputable def witnessResult : GenResult :=
  witnessHammer.generateCore witnessGen witnessGen "out" witnessFS

/-- Witness for C2 at the concrete hammer state. -/
theorem claim_C2_witness :
    (randomChoice witnessHammer.handle_generators 0 = some witnessGen
      ∧ randomChoice witnessHammer.head_generators 0 = some witnessGen
      ∧ witnessHammer.generate "out" 0 0 witnessFS = some witnessResult)
    ∧ witnessResult.head_data.fields "roll" =
        (witnessHammer.sample_head_transformation (witnessGen.gen "out")
          (witnessGen.gen "out")).1 0 :=
  ⟨⟨rfl, rfl, rfl⟩,
    (claim_C2 witnessHammer witnessGen witnessGen "out" 0 0 witnessFS witnessResult
      rfl rfl rfl).2.2.2.1⟩

/-- Witness for C5 at the concrete hammer state. -/
theorem claim_C5_witness :
    (witnessHammer.generate "out" 0 0 witnessFS = some witnessResult
      ∧ TemplatePiece.slot "name" ∈ witnessHammer.template
      ∧ TemplatePiece.slot "handle_name" ∈ witnessHammer.template
      ∧ TemplatePiece.slot "head_name" ∈ witnessHammer.template)
    ∧ witnessResult.fs ("out" ++ "/" ++ witnessHammer.name ++ ".urdf")
        = some witnessResult.content
    ∧ containsSubstr witnessHammer.name witnessResult.content :=
  ⟨⟨rfl, by decide, by decide, by decide⟩,
    (claim_C5 witnessHammer "out" 0 0 witnessFS witnessResult rfl
      (by decide) (by decide) (by decide)).2.1,
    (claim_C5 witnessHammer "out" 0 0 witnessFS witnessResult rfl
      (by decide) (by decide) (by decide)).2.2.1⟩

/-- Witness for C9 at the concrete hammer state, with the untouched
numeric field `size_z`. -/
theorem claim_C9_witness :
    (randomChoice witnessHammer.handle_generators 0 = some witnessGen
      ∧ randomChoice witnessHammer.head_generators 0 = some witnessGen
      ∧ witnessHammer.generate "out" 0 0 witnessFS = some witnessResult
      ∧ ("size_z" : String) ≠ "x")
    ∧ witnessResult.handle_data = witnessGen.gen "out"
    ∧ witnessResult.head_data.fields "size_z" = (witnessGen.gen "out").fields "size_z" :=
  ⟨⟨rfl, rfl, rfl, by decide⟩,
    (claim_C9 witnessHammer witnessGen witnessGen "out" 0 0 witnessFS witnessResult
      rfl rfl rfl).1,
    (claim_C9 witnessHammer witnessGen witnessGen "out" 0 0 witnessFS witnessResult
      rfl rfl rfl).2.2.2 "size_z" (by decide) (by decide) (by decide)
      (by decide) (by decide) (by decide)⟩

/-- The hammer state the constructor builds from the concrete collaborator
constructors when no mesh-path source is given. -/
noncomputable def witnessInitHammer : Hammer :=
  { template := witnessTemplate
    handle_generators := [witnessGen, witnessGen, witnessGen]
    head_generators := [witnessGen, witnessGen, witnessGen]
    random_flip := true
    name := "hammer" }

/-- Witness for C10 at concrete collaborator constructors, with no
mesh-path source. -/
theorem claim_C10_witness :
    (hammerInit (fun _ _ => witnessGen) (fun _ _ => witnessGen) (fun _ _ => witnessGen)
        (fun _ _ _ => witnessGen) HANDLE_CONFIG HEAD_CONFIG (some witnessTemplate)
        "hammer" none true = some witnessInitHammer)
    ∧ witnessInitHammer.handle_generators.length = 3
    ∧ (randomChoice witnessInitHammer.head_generators 5).isSome :=
  ⟨rfl,
    ((claim_C10 (fun _ _ => witnessGen) (fun _ _ => witnessGen) (fun _ _ => witnessGen)
      (fun _ _ _ => witnessGen) HANDLE_CONFIG HEAD_CONFIG witnessTemplate
      "hammer" none true witnessInitHammer rfl).1 rfl).1,
    ((claim_C10 (fun _ _ => witnessGen) (fun _ _ => witnessGen) (fun _ _ => witnessGen)
      (fun _ _ _ => witnessGen) HANDLE_CONFIG HEAD_CONFIG witnessTemplate
      "hammer" none true witnessInitHammer rfl).2.2 0 5).2⟩

end ProceduralObjects
